import Mathlib

/-
Verification development for the Terraform-subset interpreter
(terraform_parser.py): a shallow embedding of the block extractor
(TerraformApplyListener), the reference resolver (resolve_token), the
polling loop of create_droplet, and the plan/apply/destroy lifecycle of
main, together with theorems settling the specification claims.
-/

set_option autoImplicit false

namespace Tf

/-- The double-quote character, written by code point to keep string
literals free of embedded quote characters. -/
def quoteChar : Char := Char.ofNat 34

/-- Model of Python str.stripable behaviour for quotes: strip removes every
leading and trailing occurrence of the quote character. -/
def stripQuotes (s : String) : String :=
  String.mk (((s.data.dropWhile (fun c => c = quoteChar)).reverse.dropWhile
    (fun c => c = quoteChar)).reverse)

/-- Lookup in an association list modelling a Python dict (first match wins;
the insert below keeps keys unique, mirroring dict lookup). -/
def lookup : List (String × String) → String → Option String
  | [], _ => none
  | p :: rest, k => if p.1 = k then some p.2 else lookup rest k

/-- Model of Python dict assignment d[k] = v: replace the value in place if
the key exists, otherwise append the pair. -/
def upsert : List (String × String) → String → String → List (String × String)
  | [], k, v => [(k, v)]
  | p :: rest, k, v => if p.1 = k then (k, v) :: rest else p :: upsert rest k v

/-- The value of the last pair with key default in a block body, if any:
the value that a sequence of dict assignments guarded by key = default
leaves behind. -/
def lastDefault : List (String × String) → Option String
  | [] => none
  | kv :: rest =>
    match lastDefault rest with
    | some v => some v
    | none => if kv.1 = ("default") then some kv.2 else none

/-- The value of the last pair with the given key in a block body, if any. -/
def lastVal : List (String × String) → String → Option String
  | [], _ => none
  | kv :: rest, k =>
    match lastVal rest k with
    | some v => some v
    | none => if kv.1 = k then some kv.2 else none

/-- Worker for the model of Python str.split on the dot separator:
acc holds the characters of the current field, reversed. -/
def splitDotAux : List Char → List Char → List String
  | acc, [] => [String.mk acc.reverse]
  | acc, c :: rest =>
    if c = ('.' : Char) then String.mk acc.reverse :: splitDotAux [] rest
    else splitDotAux (c :: acc) rest

/-- Model of Python expr.split on the dot separator. -/
def pySplitDot (s : String) : List String := splitDotAux [] s.data

/-- Model of Python s.startswith pre. -/
def pyStartsWith (s pre : String) : Bool := List.isPrefixOf pre.data s.data

/-- The mutable state of TerraformApplyListener. -/
structure Listener where
  vars : List (String × String)
  provider_token_expr : Option String
  droplet_config : List (String × String)
  droplet_id : Option Nat
  droplet_ip : Option String
  deriving DecidableEq

/-- TerraformApplyListener.__init__. -/
def initListener : Listener :=
  { vars := [], provider_token_expr := none, droplet_config := [],
    droplet_id := none, droplet_ip := none }

/-- The exceptions the program raises, by site. keyError models the Python
KeyError raised when a required droplet attribute is missing. -/
inductive TfError where
  | unsupportedProvider
  | noToken
  | undefinedVariable (name : String)
  | missingResource
  | keyError (key : String)
  deriving DecidableEq

/-- A block of the parse tree, carrying the raw token texts exactly as the
listener receives them (STRING tokens still include their quotes; each
key/value pair is the IDENTIFIER text and the raw expr text). -/
inductive Block where
  | variableBlock (nameRaw : String) (kvs : List (String × String))
  | providerBlock (nameRaw : String) (kvs : List (String × String))
  | resourceBlock (typeRaw : String) (nameRaw : String) (kvs : List (String × String))
  deriving DecidableEq

/-- TerraformApplyListener.enterVariable: for each key/value pair whose key
is default, assign the quote-stripped value under the quote-stripped
variable name. -/
def enterVariable (st : Listener) (nameRaw : String) (kvs : List (String × String)) :
    Listener :=
  { st with vars :=
      (kvs.foldl
        (fun vars kv =>
          if kv.1 = ("default") then upsert vars (stripQuotes nameRaw) (stripQuotes kv.2)
          else vars)
        st.vars) }

/-- TerraformApplyListener.enterProvider: any provider name other than
digitalocean raises; otherwise the raw token expression is stored
(unresolved, last write wins). -/
def enterProvider (st : Listener) (nameRaw : String) (kvs : List (String × String)) :
    Except TfError Listener :=
  if stripQuotes nameRaw ≠ ("digitalocean") then Except.error TfError.unsupportedProvider
  else Except.ok
    (kvs.foldl
      (fun st2 kv =>
        if kv.1 = ("token") then { st2 with provider_token_expr := some kv.2 } else st2)
      st)

/-- TerraformApplyListener.enterResource: blocks of any type other than
digitalocean_droplet are skipped; otherwise every pair is assigned into
droplet_config with quote-stripped values. -/
def enterResource (st : Listener) (typeRaw : String) (_nameRaw : String)
    (kvs : List (String × String)) : Listener :=
  if stripQuotes typeRaw ≠ ("digitalocean_droplet") then st
  else
    { st with droplet_config :=
        (kvs.foldl (fun cfg kv => upsert cfg kv.1 (stripQuotes kv.2)) st.droplet_config) }

/-- ParseTreeWalker.walk over the listener: blocks are visited in document
order; an exception raised by enterProvider aborts the walk. -/
def walkBlocks (st : Listener) : List Block → Except TfError Listener
  | [] => Except.ok st
  | Block.variableBlock n kvs :: rest => walkBlocks (enterVariable st n kvs) rest
  | Block.providerBlock n kvs :: rest =>
    match enterProvider st n kvs with
    | Except.error e => Except.error e
    | Except.ok st2 => walkBlocks st2 rest
  | Block.resourceBlock t n kvs :: rest => walkBlocks (enterResource st t n kvs) rest

/-- TerraformApplyListener.resolve_token: a missing or empty expression
raises the no-token error; an expression starting with the var. prefix is
split on dots and segment 1 is looked up in the variables table (raising
the undefined-variable error when absent); any other expression is
returned with quotes stripped. -/
def resolve_token (st : Listener) : Except TfError String :=
  match st.provider_token_expr with
  | none => Except.error TfError.noToken
  | some expr =>
    if expr = ("") then Except.error TfError.noToken
    else if pyStartsWith expr ("var.") then
      match lookup st.vars ((pySplitDot expr).getD 1 ("")) with
      | some v => Except.ok v
      | none => Except.error (TfError.undefinedVariable ((pySplitDot expr).getD 1 ("")))
    else Except.ok (stripQuotes expr)

/-- One element of the v4 network list in a poll response. -/
structure Net where
  netType : String
  ip_address : String
  deriving DecidableEq

/-- The comprehension in create_droplet: ip addresses of the interfaces
whose type field is public. -/
def public_ips (nets : List Net) : List String :=
  (nets.filter (fun n => n.netType = ("public"))).map (fun n => n.ip_address)

/-- The fixed pause between two polls, in seconds (time.sleep(5)). -/
def sleep_seconds : Nat := 5

/-- The while-True polling loop of create_droplet over a stream of poll
responses. The source loop has no bound, so a fuel argument is added
solely to make the definition total: fuel plays no role in the source and
exhausting it (the none result) means the loop is still running. On
success the loop returns the droplet id it was given, the first public
ip address, and the index of the successful poll (which equals the number
of five-second sleeps executed, since the loop sleeps after each
unsuccessful poll). -/
def pollLoop (polls : Nat → List Net) (droplet_id : Nat) (start : Nat) :
    Nat → Option (Nat × String × Nat)
  | 0 => none
  | fuel + 1 =>
    match public_ips (polls start) with
    | ip :: _ => some (droplet_id, ip, start)
    | [] => pollLoop polls droplet_id (start + 1) fuel

/-- The persisted droplet_info.json document (the ResourceRecord). -/
structure Record where
  id : Nat
  ip : String
  name : String
  region : String
  size : String
  image : String
  created_at : String
  tags : List String
  deriving DecidableEq

/-- The two files of the working directory the program reads or writes:
droplet_info.json and terraform.tfstate. The tfstate document is derived
entirely from a Record at write time and never read back, so it is
modelled by the Record it was derived from. -/
structure FS where
  droplet_info : Option Record
  tfstate : Option Record
  deriving DecidableEq

/-- The remote API requests the program can issue. -/
inductive ApiCall where
  | createDroplet (token : String) (name : String) (region : String)
      (size : String) (image : String)
  | getDroplet (token : String) (id : Nat)
  | deleteDroplet (token : String) (id : Nat)
  deriving DecidableEq

/-- The environment of one run: the id the create endpoint returns, the
stream of poll responses, the status code of the delete endpoint, the
current time, and the poll-loop fuel (a totality artifact, see pollLoop). -/
structure Env where
  create_id : Nat
  polls : Nat → List Net
  delete_status : Nat
  now : String
  fuel : Nat

/-- The observable outcome of one completed run: process exit code, the
remote API calls issued in order, the user-visible messages modelled, and
the final state of the two files. -/
structure RunResult where
  exit_code : Nat
  calls : List ApiCall
  messages : List String
  fs : FS
  deriving DecidableEq

/-- The message text of each exception (the apostrophes of the source
messages are written by code point). -/
def errText : TfError → String
  | TfError.unsupportedProvider => "Only \x27digitalocean\x27 provider is supported."
  | TfError.noToken => "No token specified in provider block."
  | TfError.undefinedVariable n =>
      "Undefined variable \x27" ++ n ++ "\x27 used in provider block."
  | TfError.missingResource => "Missing digitalocean_droplet resource."
  | TfError.keyError k => "\x27" ++ k ++ "\x27"

/-- The outcome of a run aborted by an exception: main catches it, prints
one diagnostic and exits with code 1; no API call was issued and the files
are untouched. -/
def errorRun (e : TfError) (fs : FS) : RunResult :=
  { exit_code := 1, calls := [], messages := [("[!] Error: " ++ errText e)], fs := fs }

/-- Rendering of the droplet configuration for the plan-mode print (a model
of printing the Python dict). -/
def renderConfig (cfg : List (String × String)) : String :=
  String.intercalate (", ") (cfg.map (fun kv => kv.1 ++ (": ") ++ kv.2))

/-- The apply branch of main: build the create payload from the four
required attributes (a missing one raises KeyError, in payload order,
before any request), issue the create call, poll until a public ip
appears, then write droplet_info.json and terraform.tfstate. The poll
calls are one GET per loop iteration. none means the unbounded poll loop
has not returned. -/
def applyAction (token : String) (cfg : List (String × String)) (fs : FS) (env : Env) :
    Option RunResult :=
  match lookup cfg ("name") with
  | none => some (errorRun (TfError.keyError ("name")) fs)
  | some nm =>
    match lookup cfg ("region") with
    | none => some (errorRun (TfError.keyError ("region")) fs)
    | some rg =>
      match lookup cfg ("size") with
      | none => some (errorRun (TfError.keyError ("size")) fs)
      | some sz =>
        match lookup cfg ("image") with
        | none => some (errorRun (TfError.keyError ("image")) fs)
        | some im =>
          match pollLoop env.polls env.create_id 0 env.fuel with
          | none => none
          | some (did, ip, n) =>
            some
              { exit_code := 0,
                calls := (ApiCall.createDroplet token nm rg sz im ::
                  List.replicate (n + 1) (ApiCall.getDroplet token env.create_id)),
                messages :=
                  [("[*] Creating droplet..."),
                   ("[+] Droplet created with ID: " ++ toString did),
                   ("[*] Waiting for droplet to become active and assigned an IP..."),
                   ("[✓] Droplet available at IP: " ++ ip),
                   ("[✓] Droplet ID: " ++ toString did)],
                fs :=
                  { droplet_info := some
                      { id := did, ip := ip, name := nm, region := rg, size := sz,
                        image := im, created_at := env.now, tags := [] },
                    tfstate := some
                      { id := did, ip := ip, name := nm, region := rg, size := sz,
                        image := im, created_at := env.now, tags := [] } } }

/-- The destroy branch of main: it consults only the droplet_info.json
file (never the parsed DSL beyond the already-resolved token). With a
record present it issues one DELETE for the stored id and removes both
files whatever the response status; with no record it prints the
cannot-destroy message and does nothing else. Both paths exit 0. -/
def destroyAction (token : String) (fs : FS) (env : Env) : RunResult :=
  match fs.droplet_info with
  | some info =>
    { exit_code := 0,
      calls := [ApiCall.deleteDroplet token info.id],
      messages :=
        (("[*] Deleting droplet " ++ toString info.id ++ " via REST API...") ::
          (if env.delete_status = 204 then
            ("[✓] Droplet " ++ toString info.id ++ " deleted successfully")
          else
            ("[!] Failed to delete droplet " ++ toString info.id ++ ": " ++
              toString env.delete_status)) ::
          (("[✓] Cleaned up: droplet_info.json") ::
            (if fs.tfstate.isSome then [("[✓] Cleaned up: terraform.tfstate")] else []))),
      fs := { droplet_info := none, tfstate := none } }
  | none =>
    { exit_code := 0, calls := [],
      messages := [("[!] No droplet info found. Cannot destroy.")], fs := fs }

/-- The plan branch of main: print the would-be configuration; no API
call; exit 0. (The auxiliary terraform subprocess is an external
collaborator whose result is ignored.) -/
def planAction (cfg : List (String × String)) (fs : FS) : RunResult :=
  { exit_code := 0, calls := [],
    messages :=
      [("[*] Plan mode - showing what would be created:"),
       ("[+] Would create droplet with config: " ++ renderConfig cfg)],
    fs := fs }

/-- The action selected by the command line. -/
inductive Action where
  | apply
  | destroy
  | plan
  deriving DecidableEq

/-- main: walk the parse tree, resolve the provider token, require a
non-empty droplet configuration, then run the selected action. Every
exception is caught at top level and turned into a printed diagnostic and
exit code 1. Note that the token is resolved and the resource presence is
checked before every action, destroy and plan included. -/
def runMain (blocks : List Block) (action : Action) (fs : FS) (env : Env) :
    Option RunResult :=
  match walkBlocks initListener blocks with
  | Except.error e => some (errorRun e fs)
  | Except.ok st =>
    match resolve_token st with
    | Except.error e => some (errorRun e fs)
    | Except.ok token =>
      if st.droplet_config = [] then some (errorRun TfError.missingResource fs)
      else
        match action with
        | Action.apply => applyAction token st.droplet_config fs env
        | Action.destroy => some (destroyAction token fs env)
        | Action.plan => some (planAction st.droplet_config fs)

/-- Whether a block is a provider block naming anything other than the one
supported provider. -/
def badProvider : Block → Bool
  | Block.providerBlock n _ => stripQuotes n != ("digitalocean")
  | _ => false

/-- A working directory with neither persisted file. -/
def fsEmpty : FS := { droplet_info := none, tfstate := none }

/-- A concrete environment: the create endpoint answers with id 42 and
every poll already shows a public ip. -/
def wEnv : Env :=
  { create_id := 42,
    polls := fun _ => [{ netType := ("public"), ip_address := ("1.2.3.4") }],
    delete_status := 204, now := ("2025-01-01T00:00:00Z"), fuel := 2 }

/-- A well-formed DSL file: a variable with a default, the supported
provider referencing it, and a droplet resource with the four required
attributes. -/
def okBlocks : List Block :=
  [Block.variableBlock ("\x22token\x22") [(("default"), ("\x22secret123\x22"))],
   Block.providerBlock ("\x22digitalocean\x22") [(("token"), ("var.token"))],
   Block.resourceBlock ("\x22digitalocean_droplet\x22") ("\x22web\x22")
     [(("name"), ("\x22web-1\x22")), (("region"), ("\x22nyc1\x22")),
      (("size"), ("\x22s-1vcpu-1gb\x22")), (("image"), ("\x22ubuntu-22-04\x22"))]]

/-- The listener state that walking okBlocks produces. -/
def okListener : Listener :=
  { vars := [(("token"), ("secret123"))],
    provider_token_expr := some ("var.token"),
    droplet_config :=
      [(("name"), ("web-1")), (("region"), ("nyc1")),
       (("size"), ("s-1vcpu-1gb")), (("image"), ("ubuntu-22-04"))],
    droplet_id := none, droplet_ip := none }

/-- The resource record the concrete apply run persists. -/
def wRecord : Record :=
  { id := 42, ip := ("1.2.3.4"), name := ("web-1"), region := ("nyc1"),
    size := ("s-1vcpu-1gb"), image := ("ubuntu-22-04"),
    created_at := ("2025-01-01T00:00:00Z"), tags := [] }

/-- The outcome of running apply on okBlocks in wEnv over an empty
working directory. -/
def wApplyResult : RunResult :=
  { exit_code := 0,
    calls :=
      [ApiCall.createDroplet ("secret123") ("web-1") ("nyc1") ("s-1vcpu-1gb") ("ubuntu-22-04"),
       ApiCall.getDroplet ("secret123") 42],
    messages :=
      [("[*] Creating droplet..."),
       ("[+] Droplet created with ID: 42"),
       ("[*] Waiting for droplet to become active and assigned an IP..."),
       ("[✓] Droplet available at IP: 1.2.3.4"),
       ("[✓] Droplet ID: 42")],
    fs := { droplet_info := some wRecord, tfstate := some wRecord } }

/-- A DSL file holding only a droplet resource block: no provider block,
hence no token expression. -/
def cexBlocks : List Block :=
  [Block.resourceBlock ("\x22digitalocean_droplet\x22") ("\x22web\x22")
    [(("name"), ("w"))]]

/-- The listener state that walking cexBlocks produces: a non-empty
droplet configuration and no token expression. -/
def cexListener : Listener :=
  { vars := [], provider_token_expr := none,
    droplet_config := [(("name"), ("w"))], droplet_id := none, droplet_ip := none }

/-- A persisted resource record for the destroy counterexamples. -/
def cexRecord : Record :=
  { id := 7, ip := ("9.9.9.9"), name := ("w"), region := ("r"), size := ("s"),
    image := ("i"), created_at := ("t"), tags := [] }

/-- A DSL file whose provider block names an unsupported provider. -/
def wBadBlocks : List Block :=
  [Block.providerBlock ("\x22aws\x22") [(("token"), ("\x22x\x22"))],
   Block.resourceBlock ("\x22digitalocean_droplet\x22") ("\x22web\x22")
     [(("name"), ("w"))]]

/-- A poll stream whose first response has no public interface and whose
later responses all do. -/
def wPolls : Nat → List Net :=
  fun n => if n = 0 then [] else [{ netType := ("public"), ip_address := ("10.0.0.1") }]

/-- A listener whose token expression references an undefined variable. -/
def wStVar : Listener :=
  { vars := [], provider_token_expr := some ("var.token"),
    droplet_config := [], droplet_id := none, droplet_ip := none }

/-- A listener whose token expression is a quoted literal. -/
def wStLit : Listener :=
  { vars := [], provider_token_expr := some ("\x22abc123\x22"),
    droplet_config := [], droplet_id := none, droplet_ip := none }

/-- A listener whose token expression has two dot-separated segments after
the var prefix. -/
def wStMulti : Listener :=
  { vars := [(("x"), ("xdefault"))], provider_token_expr := some ("var.x.y"),
    droplet_config := [], droplet_id := none, droplet_ip := none }

theorem lookup_upsert_self (d : List (String × String)) (k v : String) :
    lookup (upsert d k v) k = some v := by
  induction d with
  | nil => simp [upsert, lookup]
  | cons p rest ih =>
    by_cases h : p.1 = k
    · simp [upsert, h, lookup]
    · simp [upsert, h, lookup, ih]

theorem lookup_upsert_ne (d : List (String × String)) (k v k2 : String) (h : k2 ≠ k) :
    lookup (upsert d k v) k2 = lookup d k2 := by
  induction d with
  | nil => simp [upsert, lookup, Ne.symm h]
  | cons p rest ih =>
    by_cases hp : p.1 = k
    · simp [upsert, hp, lookup, Ne.symm h]
    · by_cases hp2 : p.1 = k2
      · simp [upsert, hp, lookup, hp2, h]
      · simp [upsert, hp, lookup, hp2, ih]

theorem lookup_foldl_default (n : String) (kvs : List (String × String)) :
    ∀ (vars : List (String × String)) (k : String),
      lookup (kvs.foldl
        (fun vars kv =>
          if kv.1 = ("default") then upsert vars n (stripQuotes kv.2) else vars)
        vars) k
      = (match lastDefault kvs with
         | some v => if k = n then some (stripQuotes v) else lookup vars k
         | none => lookup vars k) := by
  induction kvs with
  | nil => intro vars k; simp [lastDefault]
  | cons kv rest ih =>
    intro vars k
    simp only [List.foldl_cons]
    rw [ih]
    cases hld : lastDefault rest with
    | some v =>
      simp only [lastDefault, hld]
      by_cases hk : k = n
      · simp [hk]
      · simp only [if_neg hk]
        by_cases hkv : kv.1 = ("default")
        · simp [hkv, lookup_upsert_ne _ _ _ _ hk]
        · simp [hkv]
    | none =>
      simp only [lastDefault, hld]
      by_cases hkv : kv.1 = ("default")
      · simp only [hkv, if_pos rfl]
        by_cases hk : k = n
        · subst hk; simp [lookup_upsert_self]
        · simp [hk, lookup_upsert_ne _ _ _ _ hk]
      · simp [hkv]

theorem foldl_default_none (n : String) (kvs : List (String × String))
    (h : lastDefault kvs = none) :
    ∀ vars : List (String × String),
      kvs.foldl
        (fun vars kv =>
          if kv.1 = ("default") then upsert vars n (stripQuotes kv.2) else vars)
        vars = vars := by
  induction kvs with
  | nil => intro vars; rfl
  | cons kv rest ih =>
    intro vars
    have hr : lastDefault rest = none := by
      simp only [lastDefault] at h
      cases hld : lastDefault rest with
      | some v => rw [hld] at h; simp at h
      | none => rfl
    have hkv : ¬ kv.1 = ("default") := by
      simp only [lastDefault, hr] at h
      by_cases hkv : kv.1 = ("default")
      · simp [hkv] at h
      · exact hkv
    simp only [List.foldl_cons, if_neg hkv]
    exact ih hr vars

theorem lookup_foldl_upsert (kvs : List (String × String)) :
    ∀ (cfg : List (String × String)) (k : String),
      lookup (kvs.foldl (fun cfg kv => upsert cfg kv.1 (stripQuotes kv.2)) cfg) k
      = (match lastVal kvs k with
         | some v => some (stripQuotes v)
         | none => lookup cfg k) := by
  induction kvs with
  | nil => intro cfg k; simp [lastVal]
  | cons kv rest ih =>
    intro cfg k
    simp only [List.foldl_cons]
    rw [ih]
    cases hld : lastVal rest k with
    | some v => simp [lastVal, hld]
    | none =>
      simp only [lastVal, hld]
      by_cases hkv : kv.1 = k
      · subst hkv; simp [lookup_upsert_self]
      · simp [hkv, lookup_upsert_ne _ _ _ _ (Ne.symm hkv)]

theorem walkBlocks_badProvider (blocks : List Block) :
    ∀ st : Listener, (∃ b ∈ blocks, badProvider b = true) →
      walkBlocks st blocks = Except.error TfError.unsupportedProvider := by
  induction blocks with
  | nil => intro st h; simp at h
  | cons b rest ih =>
    intro st h
    cases b with
    | variableBlock n kvs =>
      have h2 : ∃ b ∈ rest, badProvider b = true := by
        obtain ⟨b2, hb2, hbad⟩ := h
        cases hb2 with
        | head => simp [badProvider] at hbad
        | tail _ hmem => exact ⟨b2, hmem, hbad⟩
      exact ih _ h2
    | resourceBlock t n kvs =>
      have h2 : ∃ b ∈ rest, badProvider b = true := by
        obtain ⟨b2, hb2, hbad⟩ := h
        cases hb2 with
        | head => simp [badProvider] at hbad
        | tail _ hmem => exact ⟨b2, hmem, hbad⟩
      exact ih _ h2
    | providerBlock n kvs =>
      by_cases hname : stripQuotes n = ("digitalocean")
      · have h2 : ∃ b ∈ rest, badProvider b = true := by
          obtain ⟨b2, hb2, hbad⟩ := h
          cases hb2 with
          | head => simp [badProvider, hname] at hbad
          | tail _ hmem => exact ⟨b2, hmem, hbad⟩
        simp only [walkBlocks, enterProvider, hname]
        simp only [ne_eq, not_true_eq_false, if_false]
        exact ih _ h2
      · simp only [walkBlocks, enterProvider]
        simp [hname]

theorem pollLoop_never (polls : Nat → List Net) (id : Nat)
    (h : ∀ n, public_ips (polls n) = []) :
    ∀ (fuel start : Nat), pollLoop polls id start fuel = none := by
  intro fuel
  induction fuel with
  | zero => intro start; rfl
  | succ f ih =>
    intro start
    simp only [pollLoop, h start]
    exact ih (start + 1)

theorem pollLoop_found (polls : Nat → List Net) (id N : Nat) (ip : String)
    (rest : List String) (hN : public_ips (polls N) = ip :: rest) :
    ∀ (fuel start : Nat), start ≤ N →
      (∀ m, start ≤ m → m < N → public_ips (polls m) = []) →
      N - start < fuel → pollLoop polls id start fuel = some (id, ip, N) := by
  intro fuel
  induction fuel with
  | zero => intro start _ _ hlt; omega
  | succ f ih =>
    intro start hle hb hlt
    rcases Nat.lt_or_ge start N with hlt2 | hge
    · have hempty := hb start (Nat.le_refl start) hlt2
      simp only [pollLoop, hempty]
      exact ih (start + 1) hlt2 (fun m h1 h2 => hb m (by omega) h2) (by omega)
    · have heq : start = N := Nat.le_antisymm hle hge
      subst heq
      simp only [pollLoop, hN]

theorem pollLoop_id_eq (polls : Nat → List Net) (id : Nat) :
    ∀ (fuel start did : Nat) (ip : String) (n : Nat),
      pollLoop polls id start fuel = some (did, ip, n) → did = id := by
  intro fuel
  induction fuel with
  | zero => intro start did ip n h; simp [pollLoop] at h
  | succ f ih =>
    intro start did ip n h
    simp only [pollLoop] at h
    cases hp : public_ips (polls start) with
    | nil => rw [hp] at h; exact ih (start + 1) did ip n h
    | cons a l =>
      rw [hp] at h
      simp only [Option.some.injEq, Prod.mk.injEq] at h
      exact h.1.symm

theorem splitDotAux_no_dot (l : List Char) (h : ('.' : Char) ∉ l) :
    ∀ acc : List Char, splitDotAux acc l = [String.mk (acc.reverse ++ l)] := by
  induction l with
  | nil => intro acc; simp [splitDotAux]
  | cons c cs ih =>
    intro acc
    rw [List.mem_cons, not_or] at h
    obtain ⟨h1, h2⟩ := h
    simp only [splitDotAux, if_neg (Ne.symm h1)]
    rw [ih h2 (c :: acc)]
    simp [List.append_assoc]

theorem splitDotAux_dot (l1 : List Char) (h : ('.' : Char) ∉ l1) (l2 : List Char) :
    ∀ acc : List Char,
      splitDotAux acc (l1 ++ ('.' : Char) :: l2)
        = String.mk (acc.reverse ++ l1) :: splitDotAux [] l2 := by
  induction l1 with
  | nil => intro acc; simp [splitDotAux]
  | cons c cs ih =>
    intro acc
    rw [List.mem_cons, not_or] at h
    obtain ⟨h1, h2⟩ := h
    simp only [List.cons_append, splitDotAux, if_neg (Ne.symm h1), List.append_eq]
    rw [ih h2 (c :: acc)]
    simp [List.append_assoc]

theorem pySplitDot_var_prefix (a : String) (ha : ('.' : Char) ∉ a.data) :
    pySplitDot (("var.") ++ a) = [("var"), a] := by
  unfold pySplitDot
  rw [String.data_append]
  show splitDotAux [] (['v', 'a', 'r'] ++ ('.' : Char) :: a.data) = _
  rw [splitDotAux_dot ['v', 'a', 'r'] (by decide) a.data []]
  rw [splitDotAux_no_dot a.data ha []]
  rfl

theorem data_var_two (a b : String) :
    ((("var.") ++ a ++ (".")) ++ b).data
      = ['v', 'a', 'r'] ++ ('.' : Char) :: (a.data ++ ('.' : Char) :: b.data) := by
  rw [String.data_append, String.data_append, String.data_append]
  have h1 : ("var." : String).data = ['v', 'a', 'r', '.'] := rfl
  have h2 : ("." : String).data = ['.'] := rfl
  rw [h1, h2]
  simp [List.append_assoc]

theorem pySplitDot_var_two (a b : String) (ha : ('.' : Char) ∉ a.data) :
    pySplitDot ((("var.") ++ a ++ (".")) ++ b) = ("var") :: a :: pySplitDot b := by
  unfold pySplitDot
  rw [data_var_two]
  show splitDotAux [] (['v', 'a', 'r'] ++ ('.' : Char) :: (a.data ++ ('.' : Char) :: b.data)) = _
  rw [splitDotAux_dot ['v', 'a', 'r'] (by decide) _ []]
  rw [splitDotAux_dot a.data ha b.data []]
  rfl

theorem isPrefixOf_append_self (l1 l2 : List Char) :
    List.isPrefixOf l1 (l1 ++ l2) = true := by
  induction l1 with
  | nil => cases l2 with
    | nil => rfl
    | cons c cs => rfl
  | cons c cs ih => simp [List.isPrefixOf, ih]

theorem pyStartsWith_var (s : String) : pyStartsWith (("var.") ++ s) ("var.") = true := by
  unfold pyStartsWith
  rw [String.data_append]
  exact isPrefixOf_append_self _ _

theorem pyStartsWith_var_two (a b : String) :
    pyStartsWith ((("var.") ++ a ++ (".")) ++ b) ("var.") = true := by
  unfold pyStartsWith
  rw [data_var_two]
  show List.isPrefixOf (['v', 'a', 'r', '.'] : List Char) _ = true
  show List.isPrefixOf (['v', 'a', 'r', '.'] : List Char)
    ((['v', 'a', 'r', '.'] : List Char) ++ (a.data ++ ('.' : Char) :: b.data)) = true
  exact isPrefixOf_append_self _ _

theorem var_append_ne_empty (s : String) : (("var.") ++ s) ≠ ("") := by
  intro h
  have h2 : (("var.") ++ s).data = ("" : String).data := by rw [h]
  rw [String.data_append] at h2
  have h1 : ("var." : String).data = ['v', 'a', 'r', '.'] := rfl
  rw [h1] at h2
  simp at h2

theorem var_two_ne_empty (a b : String) : ((("var.") ++ a ++ (".")) ++ b) ≠ ("") := by
  intro h
  have h2 : ((("var.") ++ a ++ (".")) ++ b).data = ("" : String).data := by rw [h]
  rw [data_var_two] at h2
  simp at h2

theorem runMain_ok (blocks : List Block) (action : Action) (fs : FS) (env : Env)
    (st : Listener) (tok : String)
    (hw : walkBlocks initListener blocks = Except.ok st)
    (hr : resolve_token st = Except.ok tok)
    (hc : ¬ st.droplet_config = []) :
    runMain blocks action fs env =
      (match action with
       | Action.apply => applyAction tok st.droplet_config fs env
       | Action.destroy => some (destroyAction tok fs env)
       | Action.plan => some (planAction st.droplet_config fs)) := by
  unfold runMain
  simp [hw, hr, hc]

theorem applyAction_record (token : String) (cfg : List (String × String)) (fs : FS)
    (env : Env) (r : RunResult)
    (h : applyAction token cfg fs env = some r) (h0 : r.exit_code = 0) :
    ∃ rec, r.fs.droplet_info = some rec ∧ rec.id = env.create_id := by
  unfold applyAction at h
  split at h
  · obtain rfl := Option.some.inj h; simp [errorRun] at h0
  · split at h
    · obtain rfl := Option.some.inj h; simp [errorRun] at h0
    · split at h
      · obtain rfl := Option.some.inj h; simp [errorRun] at h0
      · split at h
        · obtain rfl := Option.some.inj h; simp [errorRun] at h0
        · split at h
          · simp at h
          · rename_i did ip n heq
            obtain rfl := Option.some.inj h
            have hid := pollLoop_id_eq env.polls env.create_id env.fuel 0 did ip n heq
            exact ⟨_, rfl, hid⟩

/-- C4 (confirmed): resolve fails with the undefined-variable error when
the expression has the shape var.name with name absent from the Symbol
Table, fails with the no-token error when the expression is absent or
empty, returns the stored default when the name is present, and otherwise
returns the literal text with surrounding quotes stripped. -/
theorem resolve_token_spec (st : Listener) :
    (st.provider_token_expr = none → resolve_token st = Except.error TfError.noToken) ∧
    (st.provider_token_expr = some ("") → resolve_token st = Except.error TfError.noToken) ∧
    (∀ a : String, ('.' : Char) ∉ a.data →
      st.provider_token_expr = some (("var.") ++ a) →
      (lookup st.vars a = none →
        resolve_token st = Except.error (TfError.undefinedVariable a)) ∧
      (∀ v, lookup st.vars a = some v → resolve_token st = Except.ok v)) ∧
    (∀ e, st.provider_token_expr = some e → e ≠ ("") →
      pyStartsWith e ("var.") = false → resolve_token st = Except.ok (stripQuotes e)) := by
  refine ⟨?_, ?_, ?_, ?_⟩
  · intro h; simp [resolve_token, h]
  · intro h; simp [resolve_token, h]
  · intro a ha he
    constructor
    · intro hl
      simp [resolve_token, he, var_append_ne_empty a, pyStartsWith_var a,
        pySplitDot_var_prefix a ha, hl]
    · intro v hl
      simp [resolve_token, he, var_append_ne_empty a, pyStartsWith_var a,
        pySplitDot_var_prefix a ha, hl]
  · intro e he hne hps
    simp [resolve_token, he, hne, hps]

/-- Witness for resolve_token_spec: an undefined variable reference fails
and a quoted literal resolves to its unquoted text. -/
theorem resolve_token_spec_witness :
    resolve_token wStVar = Except.error (TfError.undefinedVariable ("token")) ∧
    resolve_token wStLit = Except.ok ("abc123") := by
  constructor
  · exact ((resolve_token_spec wStVar).2.2.1 ("token") (by decide) rfl).1 rfl
  · have h := (resolve_token_spec wStLit).2.2.2 ("\x22abc123\x22") rfl (by decide) (by decide)
    exact h.trans (by rfl)

/-- C5 (confirmed): a variable block with a default key leaves its
quote-stripped (last) default value in the Symbol Table under the
variable's name, a later block with the same name overwrites the earlier
value, other names are untouched, and a block with no default key leaves
the listener unchanged. -/
theorem enterVariable_spec (st : Listener) (nameRaw : String)
    (kvs : List (String × String)) :
    (lastDefault kvs = none → enterVariable st nameRaw kvs = st) ∧
    (∀ v, lastDefault kvs = some v →
      lookup (enterVariable st nameRaw kvs).vars (stripQuotes nameRaw)
        = some (stripQuotes v)) ∧
    (∀ k, k ≠ stripQuotes nameRaw →
      lookup (enterVariable st nameRaw kvs).vars k = lookup st.vars k) ∧
    (∀ (kvs1 : List (String × String)) (v : String), lastDefault kvs = some v →
      lookup (enterVariable (enterVariable st nameRaw kvs1) nameRaw kvs).vars
        (stripQuotes nameRaw) = some (stripQuotes v)) := by
  refine ⟨?_, ?_, ?_, ?_⟩
  · intro h
    simp only [enterVariable]
    rw [foldl_default_none (stripQuotes nameRaw) kvs h st.vars]
  · intro v h
    have hthis := lookup_foldl_default (stripQuotes nameRaw) kvs st.vars (stripQuotes nameRaw)
    rw [h] at hthis
    simp at hthis
    exact hthis
  · intro k hk
    have hthis := lookup_foldl_default (stripQuotes nameRaw) kvs st.vars k
    cases hld : lastDefault kvs with
    | some v => rw [hld] at hthis; simp [hk] at hthis; exact hthis
    | none => rw [hld] at hthis; simp at hthis; exact hthis
  · intro kvs1 v h
    have hthis := lookup_foldl_default (stripQuotes nameRaw) kvs
      (enterVariable st nameRaw kvs1).vars (stripQuotes nameRaw)
    rw [h] at hthis
    simp at hthis
    exact hthis

/-- Witness for enterVariable_spec: two blocks for the same variable name,
processed in order; the later default wins. -/
theorem enterVariable_spec_witness :
    lookup (enterVariable (enterVariable initListener ("\x22v\x22")
        [(("default"), ("\x22a\x22"))]) ("\x22v\x22")
        [(("default"), ("\x22b\x22"))]).vars ("v") = some ("b") := by
  exact (enterVariable_spec initListener ("\x22v\x22")
    [(("default"), ("\x22b\x22"))]).2.2.2 [(("default"), ("\x22a\x22"))] ("\x22b\x22") rfl

/-- C6 (confirmed): a resource block whose type is not digitalocean_droplet
is skipped entirely with no error and no change; otherwise each mentioned
key holds the quote-stripped value of its last occurrence in the block and
unmentioned keys are unchanged. -/
theorem enterResource_spec (st : Listener) (typeRaw nameRaw : String)
    (kvs : List (String × String)) :
    (stripQuotes typeRaw ≠ ("digitalocean_droplet") →
      enterResource st typeRaw nameRaw kvs = st) ∧
    (stripQuotes typeRaw = ("digitalocean_droplet") →
      (∀ k v, lastVal kvs k = some v →
        lookup (enterResource st typeRaw nameRaw kvs).droplet_config k
          = some (stripQuotes v)) ∧
      (∀ k, lastVal kvs k = none →
        lookup (enterResource st typeRaw nameRaw kvs).droplet_config k
          = lookup st.droplet_config k)) := by
  constructor
  · intro h; simp [enterResource, h]
  · intro h
    constructor
    · intro k v hv
      have hthis := lookup_foldl_upsert kvs st.droplet_config k
      rw [hv] at hthis
      simp at hthis
      simp only [enterResource, h, ne_eq, not_true_eq_false, if_false]
      exact hthis
    · intro k hv
      have hthis := lookup_foldl_upsert kvs st.droplet_config k
      rw [hv] at hthis
      simp at hthis
      simp only [enterResource, h, ne_eq, not_true_eq_false, if_false]
      exact hthis

/-- Witness for enterResource_spec: a matching block with a repeated key;
the later value wins and arrives quote-stripped. -/
theorem enterResource_spec_witness :
    lookup (enterResource initListener ("\x22digitalocean_droplet\x22") ("\x22web\x22")
      [(("name"), ("\x22a\x22")), (("name"), ("\x22b\x22"))]).droplet_config ("name")
      = some ("b") := by
  exact ((enterResource_spec initListener ("\x22digitalocean_droplet\x22") ("\x22web\x22")
    [(("name"), ("\x22a\x22")), (("name"), ("\x22b\x22"))]).2 (by rfl)).1
    ("name") ("\x22b\x22") (by rfl)

/-- C7 (confirmed): a provider block naming anything but digitalocean makes
the tree walk itself fail with the unsupported-provider configuration
error, and the whole run (any action, any file state, any environment)
exits 1 with that diagnostic and no API call, before any resolution. -/
theorem provider_error_during_walk (blocks : List Block) (action : Action)
    (fs : FS) (env : Env) (h : ∃ b ∈ blocks, badProvider b = true) :
    walkBlocks initListener blocks = Except.error TfError.unsupportedProvider ∧
    runMain blocks action fs env = some (errorRun TfError.unsupportedProvider fs) := by
  have hw := walkBlocks_badProvider blocks initListener h
  refine ⟨hw, ?_⟩
  unfold runMain
  simp [hw]

/-- Witness for provider_error_during_walk at a DSL naming the aws
provider. -/
theorem provider_error_witness :
    walkBlocks initListener wBadBlocks = Except.error TfError.unsupportedProvider ∧
    runMain wBadBlocks Action.apply fsEmpty wEnv
      = some (errorRun TfError.unsupportedProvider fsEmpty) :=
  provider_error_during_walk wBadBlocks Action.apply fsEmpty wEnv (by decide)

/-- C8 (confirmed): the polling loop returns exactly at the first poll
whose response carries a public ip, yielding the droplet id it was given
and that first ip, after one fixed five-second sleep per unsuccessful
poll; under a stream with no public ip it returns under no fuel bound at
all: there is no retry bound, no elapsed-time bound, and no other exit. -/
theorem pollLoop_spec (polls : Nat → List Net) (id N : Nat) (ip : String)
    (rest : List String)
    (hb : ∀ m, m < N → public_ips (polls m) = [])
    (hN : public_ips (polls N) = ip :: rest) :
    sleep_seconds = 5 ∧
    (∀ fuel, N < fuel → pollLoop polls id 0 fuel = some (id, ip, N)) ∧
    (∀ q : Nat → List Net, (∀ n, public_ips (q n) = []) →
      ∀ start fuel, pollLoop q id start fuel = none) := by
  refine ⟨rfl, ?_, ?_⟩
  · intro fuel hfuel
    exact pollLoop_found polls id N ip rest hN fuel 0 (Nat.zero_le N)
      (fun m _ hm => hb m hm) (by omega)
  · intro q hq start fuel
    exact pollLoop_never q id hq fuel start

/-- Witness for pollLoop_spec: the stream wPolls first answers without a
public ip, so the loop returns at poll index 1 with the first ip. -/
theorem pollLoop_spec_witness : pollLoop wPolls 7 0 3 = some (7, ("10.0.0.1"), 1) := by
  have hb : ∀ m, m < 1 → public_ips (wPolls m) = [] := by
    intro m hm
    have hm0 : m = 0 := by omega
    rw [hm0]; rfl
  exact (pollLoop_spec wPolls 7 1 ("10.0.0.1") [] hb (by rfl)).2.1 3 (by omega)

/-- C10 (confirmed): a token expression with more than one dot-separated
segment after the var prefix resolves by looking up only the first
segment in the Symbol Table; the remaining segments are ignored, and the
joined text is never treated as the variable name. -/
theorem resolve_token_multidot (st : Listener) (a b : String)
    (ha : ('.' : Char) ∉ a.data)
    (he : st.provider_token_expr = some ((("var.") ++ a ++ (".")) ++ b)) :
    (∀ v, lookup st.vars a = some v → resolve_token st = Except.ok v) ∧
    (lookup st.vars a = none →
      resolve_token st = Except.error (TfError.undefinedVariable a)) := by
  constructor
  · intro v hv
    simp [resolve_token, he, var_two_ne_empty a b, pyStartsWith_var_two a b,
      pySplitDot_var_two a b ha, hv]
  · intro hv
    simp [resolve_token, he, var_two_ne_empty a b, pyStartsWith_var_two a b,
      pySplitDot_var_two a b ha, hv]

/-- Witness for resolve_token_multidot: var.x.y resolves to the default of
x. -/
theorem resolve_token_multidot_witness : resolve_token wStMulti = Except.ok ("xdefault") := by
  exact (resolve_token_multidot wStMulti ("x") ("y") (by decide) rfl).1 ("xdefault") rfl

/-- C1 counterexample: with a persisted record present, a destroy run over
a DSL lacking a provider token fails with the no-token error, exit 1, and
issues no delete: the parsed DSL does gate the destroy path. -/
theorem destroy_gated_by_dsl_cex :
    runMain cexBlocks Action.destroy
        { droplet_info := some cexRecord, tfstate := none } wEnv
      = some (errorRun TfError.noToken
        { droplet_info := some cexRecord, tfstate := none }) := by
  rfl

/-- C1 (amended): once the pre-action phase has succeeded (token resolved,
resource configuration non-empty), whether a destroyable resource exists
is determined solely by the record file: destroy issues a delete exactly
when droplet_info.json exists, for the stored id, and exits 0; but that
pre-action phase does run before the destroy branch. -/
theorem destroy_existence_from_record_only (blocks : List Block) (fs : FS)
    (env : Env) (st : Listener) (tok : String)
    (hw : walkBlocks initListener blocks = Except.ok st)
    (hr : resolve_token st = Except.ok tok)
    (hc : ¬ st.droplet_config = []) :
    runMain blocks Action.destroy fs env = some (destroyAction tok fs env) ∧
    ((destroyAction tok fs env).calls = [] ↔ fs.droplet_info = none) ∧
    (∀ rec, fs.droplet_info = some rec →
      (destroyAction tok fs env).calls = [ApiCall.deleteDroplet tok rec.id]) ∧
    (destroyAction tok fs env).exit_code = 0 := by
  refine ⟨?_, ?_, ?_, ?_⟩
  · exact runMain_ok blocks Action.destroy fs env st tok hw hr hc
  · cases hfs : fs.droplet_info with
    | some rec => simp [destroyAction, hfs]
    | none => simp [destroyAction, hfs]
  · intro rec hrec; simp [destroyAction, hrec]
  · cases hfs : fs.droplet_info with
    | some rec => simp [destroyAction, hfs]
    | none => simp [destroyAction, hfs]

/-- Witness for destroy_existence_from_record_only: a well-formed DSL, a
record with id 7 on disk; the delete call targets id 7. -/
theorem destroy_existence_witness :
    runMain okBlocks Action.destroy
        { droplet_info := some cexRecord, tfstate := none } wEnv
      = some (destroyAction ("secret123")
        { droplet_info := some cexRecord, tfstate := none } wEnv) ∧
    (destroyAction ("secret123")
        { droplet_info := some cexRecord, tfstate := none } wEnv).calls
      = [ApiCall.deleteDroplet ("secret123") 7] := by
  have h := destroy_existence_from_record_only okBlocks
    { droplet_info := some cexRecord, tfstate := none } wEnv okListener ("secret123")
    (by rfl) (by rfl) (by decide)
  exact ⟨h.1, h.2.2.1 cexRecord rfl⟩

/-- C2 counterexample: a plan run whose extracted resource configuration is
non-empty still fails with the no-token error when the DSL configures no
token, because token resolution precedes the plan branch. -/
theorem plan_requires_token_cex :
    walkBlocks initListener cexBlocks = Except.ok cexListener ∧
    cexListener.droplet_config ≠ [] ∧
    runMain cexBlocks Action.plan fsEmpty wEnv
      = some (errorRun TfError.noToken fsEmpty) := by
  exact ⟨rfl, by decide, rfl⟩

/-- C2 (amended): plan has two fatal preconditions, evaluated in order:
token resolution must succeed, and the resource configuration must be
non-empty. When both hold, plan exits 0 and performs no API call. -/
theorem plan_preconditions (blocks : List Block) (fs : FS) (env : Env)
    (st : Listener) (tok : String)
    (hw : walkBlocks initListener blocks = Except.ok st)
    (hr : resolve_token st = Except.ok tok)
    (hc : ¬ st.droplet_config = []) :
    runMain blocks Action.plan fs env = some (planAction st.droplet_config fs) ∧
    (planAction st.droplet_config fs).exit_code = 0 ∧
    (planAction st.droplet_config fs).calls = [] := by
  exact ⟨runMain_ok blocks Action.plan fs env st tok hw hr hc, rfl, rfl⟩

/-- Witness for plan_preconditions at the well-formed DSL. -/
theorem plan_preconditions_witness :
    runMain okBlocks Action.plan fsEmpty wEnv
      = some (planAction okListener.droplet_config fsEmpty) ∧
    (planAction okListener.droplet_config fsEmpty).exit_code = 0 ∧
    (planAction okListener.droplet_config fsEmpty).calls = [] :=
  plan_preconditions okBlocks fsEmpty wEnv okListener ("secret123")
    (by rfl) (by rfl) (by decide)

/-- C3 counterexample: a destroy run with no persisted record exits 1 (not
0) with a fatal diagnostic when the DSL configures no token, since token
resolution precedes the destroy branch. -/
theorem destroy_no_record_cex :
    runMain cexBlocks Action.destroy fsEmpty wEnv
      = some (errorRun TfError.noToken fsEmpty) ∧
    (errorRun TfError.noToken fsEmpty).exit_code = 1 := by
  exact ⟨rfl, rfl⟩

/-- C3 (amended): provided the pre-action phase succeeds, a destroy run
with no persisted record prints the non-fatal cannot-destroy message,
performs zero API calls, leaves the files untouched and exits 0. -/
theorem destroy_no_record (blocks : List Block) (fs : FS) (env : Env)
    (st : Listener) (tok : String)
    (hw : walkBlocks initListener blocks = Except.ok st)
    (hr : resolve_token st = Except.ok tok)
    (hc : ¬ st.droplet_config = [])
    (hn : fs.droplet_info = none) :
    runMain blocks Action.destroy fs env =
      some { exit_code := 0, calls := [],
             messages := [("[!] No droplet info found. Cannot destroy.")], fs := fs } := by
  have h := runMain_ok blocks Action.destroy fs env st tok hw hr hc
  rw [h]
  show some (destroyAction tok fs env) = _
  simp [destroyAction, hn]

/-- Witness for destroy_no_record at the well-formed DSL over an empty
working directory. -/
theorem destroy_no_record_witness :
    runMain okBlocks Action.destroy fsEmpty wEnv =
      some { exit_code := 0, calls := [],
             messages := [("[!] No droplet info found. Cannot destroy.")], fs := fsEmpty } :=
  destroy_no_record okBlocks fsEmpty wEnv okListener ("secret123")
    (by rfl) (by rfl) (by decide) rfl

/-- C9 (confirmed): the id inside the record a successful apply writes is
the id the create endpoint returned, and a destroy run over the file
state apply left behind issues its delete call for exactly that stored
id. -/
theorem apply_destroy_roundtrip (blocks blocks2 : List Block) (fs : FS)
    (env env2 : Env) (r : RunResult) (rec : Record) (st2 : Listener) (tok2 : String)
    (h1 : runMain blocks Action.apply fs env = some r)
    (h0 : r.exit_code = 0)
    (hrec : r.fs.droplet_info = some rec)
    (hw2 : walkBlocks initListener blocks2 = Except.ok st2)
    (hr2 : resolve_token st2 = Except.ok tok2)
    (hc2 : ¬ st2.droplet_config = []) :
    rec.id = env.create_id ∧
    runMain blocks2 Action.destroy r.fs env2 = some (destroyAction tok2 r.fs env2) ∧
    (destroyAction tok2 r.fs env2).calls = [ApiCall.deleteDroplet tok2 rec.id] := by
  have hid : rec.id = env.create_id := by
    unfold runMain at h1
    split at h1
    · obtain rfl := Option.some.inj h1; simp [errorRun] at h0
    · split at h1
      · obtain rfl := Option.some.inj h1; simp [errorRun] at h0
      · split at h1
        · obtain rfl := Option.some.inj h1; simp [errorRun] at h0
        · have h1x : applyAction _ _ fs env = some r := h1
          obtain ⟨rec2, hrec2, hid2⟩ := applyAction_record _ _ fs env r h1x h0
          have hr2eq : rec = rec2 := Option.some.inj (hrec.symm.trans hrec2)
          rw [hr2eq]; exact hid2
  refine ⟨hid, runMain_ok blocks2 Action.destroy r.fs env2 st2 tok2 hw2 hr2 hc2, ?_⟩
  simp [destroyAction, hrec]

/-- Witness for apply_destroy_roundtrip: a concrete apply in wEnv writes
record id 42 and the following destroy deletes id 42. -/
theorem apply_destroy_roundtrip_witness :
    wRecord.id = wEnv.create_id ∧
    runMain okBlocks Action.destroy wApplyResult.fs wEnv
      = some (destroyAction ("secret123") wApplyResult.fs wEnv) ∧
    (destroyAction ("secret123") wApplyResult.fs wEnv).calls
      = [ApiCall.deleteDroplet ("secret123") 42] := by
  have h := apply_destroy_roundtrip okBlocks okBlocks fsEmpty wEnv wEnv wApplyResult
    wRecord okListener ("secret123") (by rfl) (by rfl) (by rfl) (by rfl) (by rfl) (by decide)
  exact ⟨h.1, h.2.1, h.2.2⟩

end Tf
